import Mathlib

/-!
Shallow embedding of the session registry, lifecycle manager and inbound
event dispatcher of the openai-realtime-webrtc repository
(src/unnamed/part_008, the latest context variant).

Modelling conventions:
* JavaScript ISO-8601 timestamp strings are represented by their epoch
  millisecond value (an `Int`): the only operations the code performs on
  them are `new Date(s).getTime()` and comparison, so a string is
  identified with its parse.  `Date.now()` / `new Date().toISOString()`
  is passed in explicitly as a `now : Int` parameter.
* JavaScript `number` arithmetic on durations is modelled over `Rat`
  (the code computes `(endTimeMs - startTimeMs) / 1000`).
* Opaque browser handles (`RTCPeerConnection`, `MediaStream`) carry no
  observable structure in the registry code, so they are modelled by
  `Unit`; an `RTCDataChannel` is observed only through its `readyState`
  string.  Function-call handler values are only stored, never compared,
  so they are modelled by opaque numeric identifiers.
* `undefined` / missing optional fields are modelled by `Option` with
  `none` for absence; a TS `Partial` update payload uses a further
  `Option` layer where the code can distinguish "field absent from the
  patch" from "field set to null".
-/

namespace RealtimeWebRTC

/-- `TranscriptType` enum from the source (`'input' | 'output'`). -/
inductive TranscriptType where
  | input
  | output
  deriving DecidableEq, Repr

/-- `ConversationRole` enum from the source (`'user' | 'assistant' | 'system'`). -/
inductive ConversationRole where
  | user
  | assistant
  | system
  deriving DecidableEq, Repr

/-- `ConversationItemType` enum from the source
(`'message' | 'function_call' | 'function_call_output'`). -/
inductive ConversationItemType where
  | message
  | function_call
  | function_call_output
  deriving DecidableEq, Repr

/-- `ContentType` enum from the source
(`'input_text' | 'input_audio' | 'item_reference' | 'text'`). -/
inductive ContentType where
  | input_text
  | input_audio
  | item_reference
  | text
  deriving DecidableEq, Repr

/-- `Transcript` interface: content, creation timestamp (ms), type, role. -/
structure Transcript where
  content : String
  timestamp : Int
  type : TranscriptType
  role : ConversationRole
  deriving DecidableEq, Repr

/-- `SessionError` interface from the source. -/
structure SessionError where
  event_id : String
  type : String
  code : Option String
  message : String
  param : Option String
  related_event_id : Option String
  timestamp : Int
  deriving DecidableEq, Repr

/-- `TokenUsage` interface: latest token usage snapshot for a session. -/
structure TokenUsage where
  inputTokens : Int
  outputTokens : Int
  totalTokens : Int
  deriving DecidableEq, Repr

/-- An `RTCDataChannel` as observed by this code: only its `readyState`
string (`"connecting" | "open" | "closing" | "closed"`) is ever read. -/
structure RTCDataChannel where
  readyState : String
  deriving DecidableEq, Repr

/-- Opaque `RTCPeerConnection` handle: the registry code only stores it,
closes it and nulls it. -/
abbrev RTCPeerConnection := Unit

/-- Opaque `MediaStream` handle. -/
abbrev MediaStream := Unit

/-- `ConversationContent` interface: one content part of a message item. -/
structure ConversationContent where
  type : ContentType
  text : Option String
  id : Option String
  audio : Option String
  transcript : Option String
  deriving DecidableEq, Repr

/-- The subset of the `RealtimeSession` interface fields that the
registry reducer and lifecycle operations read or write.  The
`onFunctionCall` handler (stored by `SET_FUNCTION_CALL_HANDLER`) is an
opaque function value in the source, modelled by a numeric identifier. -/
structure RealtimeSession where
  id : String
  dataChannel : Option RTCDataChannel
  peer_connection : Option RTCPeerConnection
  mediaStream : Option MediaStream
  isConnecting : Option Bool
  isConnected : Option Bool
  transcripts : List Transcript
  errors : Option (List SessionError)
  tokenUsage : Option TokenUsage
  isMuted : Option Bool
  onFunctionCall : Option Nat
  startTime : Option Int
  endTime : Option Int
  duration : Option Rat
  deriving DecidableEq, Repr

/-- A `Partial<RealtimeSession> & { id: string }` payload for
`UPDATE_SESSION`, restricted to the fields the source ever patches
(`mediaStream`, `isConnecting`, `isConnected`, `dataChannel`,
`peer_connection`, `endTime`, `duration`).  `none` means the field is
absent from the patch; for the nullable handle fields, `some none`
means the patch sets the field to `null`. -/
structure RealtimeSessionPatch where
  id : String
  dataChannel : Option (Option RTCDataChannel)
  peer_connection : Option (Option RTCPeerConnection)
  mediaStream : Option (Option MediaStream)
  isConnecting : Option Bool
  isConnected : Option Bool
  endTime : Option Int
  duration : Option Rat
  deriving DecidableEq, Repr

/-- JavaScript object spread `{ ...session, ...payload }`: every field
present in the patch overwrites the session's field. -/
def applyPatch (session : RealtimeSession) (p : RealtimeSessionPatch) :
    RealtimeSession :=
  { session with
    id := p.id
    dataChannel := match p.dataChannel with
      | some v => v
      | none => session.dataChannel
    peer_connection := match p.peer_connection with
      | some v => v
      | none => session.peer_connection
    mediaStream := match p.mediaStream with
      | some v => v
      | none => session.mediaStream
    isConnecting := match p.isConnecting with
      | some b => some b
      | none => session.isConnecting
    isConnected := match p.isConnected with
      | some b => some b
      | none => session.isConnected
    endTime := match p.endTime with
      | some t => some t
      | none => session.endTime
    duration := match p.duration with
      | some d => some d
      | none => session.duration }

/-- The `SessionAction` union fed to `sessionReducer`. -/
inductive SessionAction where
  | addSession (payload : RealtimeSession)
  | removeSession (id : String)
  | updateSession (payload : RealtimeSessionPatch)
  | addTranscript (sessionId : String) (transcript : Transcript)
  | addError (sessionId : String) (error : SessionError)
  | setFunctionCallHandler (sessionId : String) (onFunctionCall : Nat)
  | updateTokenUsage (sessionId : String) (tokenUsage : TokenUsage)
  | muteSessionAudio (sessionId : String)
  | unmuteSessionAudio (sessionId : String)
  deriving DecidableEq, Repr

/-- `ChannelState`: the registry is an ordered list of session records. -/
abbrev ChannelState := List RealtimeSession

/-- The `sessionReducer` function, case for case.  `ADD_SESSION` appends
`[...state, action.payload]`; `REMOVE_SESSION` filters by id; the
remaining cases map over the list, rewriting the records whose `id`
matches the action's session id and leaving the others untouched. -/
def sessionReducer (state : ChannelState) (action : SessionAction) :
    ChannelState :=
  match action with
  | .addSession payload => state ++ [payload]
  | .removeSession id => state.filter (fun session => !(session.id == id))
  | .updateSession payload =>
      state.map (fun session =>
        if session.id == payload.id then applyPatch session payload
        else session)
  | .addTranscript sessionId transcript =>
      state.map (fun session =>
        if session.id == sessionId then
          { session with transcripts := session.transcripts ++ [transcript] }
        else session)
  | .addError sessionId error =>
      state.map (fun session =>
        if session.id == sessionId then
          { session with
            errors := some ((session.errors.getD []) ++ [error]) }
        else session)
  | .setFunctionCallHandler sessionId handlerRef =>
      state.map (fun session =>
        if session.id == sessionId then
          { session with onFunctionCall := some handlerRef }
        else session)
  | .updateTokenUsage sessionId tokenUsage =>
      state.map (fun session =>
        if session.id == sessionId then
          { session with tokenUsage := some tokenUsage }
        else session)
  | .muteSessionAudio sessionId =>
      state.map (fun session =>
        if session.id == sessionId then { session with isMuted := some true }
        else session)
  | .unmuteSessionAudio sessionId =>
      state.map (fun session =>
        if session.id == sessionId then { session with isMuted := some false }
        else session)

/-- Applying a list of dispatched actions in order. -/
def applyActions (state : ChannelState) (actions : List SessionAction) :
    ChannelState :=
  actions.foldl sessionReducer state

/-- `response.done` usage statistics (`usage` object of the response). -/
structure ResponseUsage where
  total_tokens : Int
  input_tokens : Int
  output_tokens : Int
  deriving DecidableEq, Repr

/-- The `item` payload of a `response.output_item.done` event, with the
fields the dispatcher reads (`type`, and via `FunctionCallDetails` the
optional `name` and `arguments` string). -/
structure OutputItem where
  id : String
  type : ConversationItemType
  name : Option String
  arguments : Option String
  deriving DecidableEq, Repr

/-- The `item` payload of an outbound `conversation.item.create` event. -/
structure ConversationItemCreateItem where
  type : ConversationItemType
  role : Option ConversationRole
  content : Option (List ConversationContent)
  deriving DecidableEq, Repr

/-- The tagged payload of a `RealtimeEvent`, one constructor per
discriminant string of `RealtimeEventType` that the code inspects; every
discriminant the dispatcher's `switch` sends to its `default` branch is
collapsed into `otherEvent`. -/
inductive RealtimeEventBody where
  | inputAudioTranscriptionCompleted (item_id : String)
      (content_index : Int) (transcript : String)
  | responseAudioTranscriptDone (transcript : String)
  | errorEvent (error : SessionError)
  | responseOutputItemDone (response_id : String) (output_index : Int)
      (item : OutputItem)
  | responseDone (usage : Option ResponseUsage)
  | conversationItemCreate (item : ConversationItemCreateItem)
  | responseCreate
  | otherEvent
  deriving DecidableEq, Repr

/-- A `RealtimeEvent`: the `event_id` of `BaseRealtimeEvent` (optional,
mutable on send) together with the tagged body. -/
structure RealtimeEvent where
  event_id : Option String
  body : RealtimeEventBody
  deriving DecidableEq, Repr

/-- One invocation of the registered function-call handler.  The source
calls `functionCallHandler?.(item.name as string, JSON.parse(argString))`
where `argString = responseEvent.item?.arguments || '\x7b\x7d'`; the
invocation is modelled by the name together with the exact string handed
to `JSON.parse`. -/
structure FnInvocation where
  name : Option String
  argsJson : String
  deriving DecidableEq, Repr

/-- `responseEvent.item?.arguments || '\x7b\x7d'`: JavaScript `||`
falls through to the default both when `arguments` is `undefined` and
when it is the (falsy) empty string. -/
def argumentsOrEmptyObject (arguments : Option String) : String :=
  match arguments with
  | some s => if s == "" then "\x7b\x7d" else s
  | none => "\x7b\x7d"

/-- The body of the data-channel `'message'` listener registered in
`startSession`, after `JSON.parse` succeeded: the `switch` on
`event.type`.  Returns the registry actions it dispatches (in dispatch
order) together with the function-call handler invocations it performs.
`hasHandler` records whether a `functionCallHandler` was passed to
`startSession` (the source invokes it through optional chaining).
`now` is `Date.now()` at message-handling time. -/
def dcMessageActions (sessionId : String) (now : Int) (hasHandler : Bool)
    (event : RealtimeEvent) : List SessionAction × List FnInvocation :=
  match event.body with
  | .inputAudioTranscriptionCompleted _ _ transcript =>
      ([.addTranscript sessionId
          { content := transcript
            timestamp := now
            type := .input
            role := .user }], [])
  | .responseAudioTranscriptDone transcript =>
      ([.addTranscript sessionId
          { content := transcript
            timestamp := now
            type := .output
            role := .assistant }], [])
  | .errorEvent error =>
      ([.addError sessionId error], [])
  | .responseOutputItemDone _ _ item =>
      if item.type == ConversationItemType.function_call then
        ([], if hasHandler then
               [{ name := item.name
                  argsJson := argumentsOrEmptyObject item.arguments }]
             else [])
      else ([], [])
  | .responseDone usage =>
      match usage with
      | some u =>
          ([.updateTokenUsage sessionId
              { inputTokens := u.input_tokens
                outputTokens := u.output_tokens
                totalTokens := u.total_tokens }], [])
      | none => ([], [])
  | _ => ([], [])

/-- The full data-channel `'message'` listener.  The raw wire string is
represented by its JSON parse result: `some event` when `e.data` is a
well-formed `RealtimeEvent`, `none` when `JSON.parse(e.data)` throws.
The listener body applies `JSON.parse` with no surrounding `try`/`catch`,
so a parse failure escapes the listener as an exception
(`Except.error ()`) with nothing dispatched. -/
def dcMessageListener (sessionId : String) (now : Int) (hasHandler : Bool)
    (parsed : Option RealtimeEvent) :
    Except Unit (List SessionAction × List FnInvocation) :=
  match parsed with
  | none => .error ()
  | some event => .ok (dcMessageActions sessionId now hasHandler event)

/-- Folding one successfully parsed inbound event into the registry:
the actions the listener dispatches for it, applied in order. -/
def processEvent (state : ChannelState) (sessionId : String) (now : Int)
    (hasHandler : Bool) (event : RealtimeEvent) : ChannelState :=
  applyActions state (dcMessageActions sessionId now hasHandler event).1

/-- Outcome of `sendClientEvent`: either a reported drop (session
missing, or data channel absent / not `"open"` — the source logs
`console.error` and returns) or a successful transmit carrying the exact
event object that was serialized onto the channel. -/
inductive SendOutcome where
  | sessionNotFound
  | channelNotOpen
  | sent (event : RealtimeEvent)
  deriving DecidableEq, Repr

/-- `sendClientEvent(sessionId, event)`.  Looks the session up in the
registry, refuses (with a `console.error` report, no throw) when the
session is unknown or its channel is not open, otherwise stamps
`event.event_id = event.event_id || crypto.randomUUID()` (the `uuid`
parameter stands for the `crypto.randomUUID()` call) and sends.  The
function dispatches no registry action, so it returns the registry
unchanged next to the outcome; the `try`/`catch` around
`dataChannel.send` guards only runtime transport failures, which are
outside this pure model. -/
def sendClientEvent (state : ChannelState) (sessionId : String)
    (event : RealtimeEvent) (uuid : String) :
    ChannelState × SendOutcome :=
  match state.find? (fun s => s.id == sessionId) with
  | none => (state, .sessionNotFound)
  | some session =>
      match session.dataChannel with
      | none => (state, .channelNotOpen)
      | some dataChannel =>
          if !(dataChannel.readyState == "open") then
            (state, .channelNotOpen)
          else
            (state, .sent
              { event with
                event_id := some (match event.event_id with
                  | some eid => if eid == "" then uuid else eid
                  | none => uuid) })

/-- The user-message event `sendTextMessage` constructs: a
`conversation.item.create` event with a fresh `event_id` and a single
input-text content part under role user. -/
def userTextEvent (uuid : String) (message : String) : RealtimeEvent :=
  { event_id := some uuid
    body := .conversationItemCreate
      { type := .message
        role := some .user
        content := some
          [{ type := .input_text
             text := some message
             id := none
             audio := none
             transcript := none }] } }

/-- `sendTextMessage(sessionId, message)`: builds the
`conversation.item.create` user event (`uuid1` stands for the
`crypto.randomUUID()` used for its `event_id`) and delegates it to
`sendClientEvent` (`uuid2` stands for the `crypto.randomUUID()` inside
`sendClientEvent`).  That delegation is the whole body: no other event
is constructed or sent. -/
def sendTextMessage (state : ChannelState) (sessionId : String)
    (message : String) (uuid1 uuid2 : String) :
    ChannelState × SendOutcome :=
  sendClientEvent state sessionId (userTextEvent uuid1 message) uuid2

/-- Whether an event is a `response.create` event. -/
def isResponseCreate (event : RealtimeEvent) : Bool :=
  match event.body with
  | .responseCreate => true
  | _ => false

/-- The `UPDATE_SESSION` payload `closeSession` dispatches for a found
session: connection flags cleared, handles nulled, `endTime` stamped,
`duration` as computed. -/
def closePatch (sessionId : String) (now : Int) (duration : Rat) :
    RealtimeSessionPatch :=
  { id := sessionId
    dataChannel := some none
    peer_connection := some none
    mediaStream := none
    isConnecting := some false
    isConnected := some false
    endTime := some now
    duration := some duration }

/-- The duration `closeSession` computes for a found session:
`endTimeMs = now`, `startTimeMs = session.startTime ? parse : 0`, and
`duration = startTimeMs ? (endTimeMs - startTimeMs) / 1000 : 0`
(JavaScript truthiness: both an absent `startTime` and one parsing to
epoch millisecond `0` take the `0` branch). -/
def closeDuration (session : RealtimeSession) (now : Int) : Rat :=
  let endTimeMs : Int := now
  let startTimeMs : Int := match session.startTime with
    | some t => t
    | none => 0
  if !(startTimeMs == 0) then ((endTimeMs - startTimeMs : Int) : Rat) / 1000
  else 0

/-- `closeSession(sessionId)` as a registry transformer.  Unknown id:
`console.warn` and return, state untouched.  Otherwise the handles are
closed (a transport side effect outside the registry), `endTime = now`
and the duration are computed, and the closing `UPDATE_SESSION` is
dispatched.  `now` stands for `new Date()` at close time, in epoch
milliseconds. -/
def closeSession (state : ChannelState) (sessionId : String) (now : Int) :
    ChannelState :=
  match state.find? (fun s => s.id == sessionId) with
  | none => state
  | some session =>
      sessionReducer state
        (.updateSession (closePatch sessionId now (closeDuration session now)))

/-- Which session id a reducer action targets, for the actions that
rewrite an existing record by id (all the `state.map` cases of
`sessionReducer`). -/
def actionTargetId : SessionAction → Option String
  | .updateSession p => some p.id
  | .addTranscript sessionId _ => some sessionId
  | .addError sessionId _ => some sessionId
  | .setFunctionCallHandler sessionId _ => some sessionId
  | .updateTokenUsage sessionId _ => some sessionId
  | .muteSessionAudio sessionId => some sessionId
  | .unmuteSessionAudio sessionId => some sessionId
  | _ => none

/-- Whether the registry holds a session with this id whose data channel
exists and is in the `"open"` ready state (the exact conditions
`sendClientEvent` checks before transmitting). -/
def sessionChannelOpen (state : ChannelState) (sessionId : String) : Bool :=
  match state.find? (fun s => s.id == sessionId) with
  | none => false
  | some session =>
      match session.dataChannel with
      | none => false
      | some dataChannel => dataChannel.readyState == "open"

/-- Whether a `sendClientEvent` outcome is a reported drop
(`console.error` + early return in the source). -/
def isDropReport : SendOutcome → Bool
  | .sessionNotFound => true
  | .channelNotOpen => true
  | .sent _ => false

/-- A `response.done` event carrying the given usage object. -/
def respDoneEvent (usage : Option ResponseUsage) : RealtimeEvent :=
  { event_id := none, body := .responseDone usage }

/-- A `response.output_item.done` event carrying the given item. -/
def outputItemDoneEvent (response_id : String) (output_index : Int)
    (item : OutputItem) : RealtimeEvent :=
  { event_id := none, body := .responseOutputItemDone response_id output_index item }

/-- The registry after two consecutive inbound `response.done` events
carrying usage objects `u1` then `u2` on one session's channel. -/
def afterTwoResponseDone (state : ChannelState) (sessionId : String)
    (now1 now2 : Int) (hasHandler : Bool) (u1 u2 : ResponseUsage) :
    ChannelState :=
  processEvent (processEvent state sessionId now1 hasHandler
      (respDoneEvent (some u1)))
    sessionId now2 hasHandler (respDoneEvent (some u2))

/-- A concrete connected session record used by witnesses and
counterexamples. -/
def sampleSession (id : String) : RealtimeSession :=
  { id := id
    dataChannel := some { readyState := "open" }
    peer_connection := some ()
    mediaStream := none
    isConnecting := some false
    isConnected := some true
    transcripts := []
    errors := none
    tokenUsage := none
    isMuted := none
    onFunctionCall := none
    startTime := some 1000
    endTime := none
    duration := none }

/-- `sampleSession` with its data channel still in the `"connecting"`
ready state. -/
def sampleConnectingSession (id : String) : RealtimeSession :=
  { sampleSession id with dataChannel := some { readyState := "connecting" } }

section Lemmas

/-- A map whose function fixes every element of the list is the
identity on that list. -/
theorem listMapSelf {α : Type} {l : List α} {f : α → α}
    (h : ∀ a ∈ l, f a = a) : l.map f = l := by
  induction l with
  | nil => rfl
  | cons a as ih =>
      simp only [List.map_cons]
      rw [h a (List.mem_cons_self a as), ih (fun b hb => h b (List.mem_cons_of_mem a hb))]

/-- Pointwise equal functions map lists equally. -/
theorem listMapCongr {α β : Type} {l : List α} {f g : α → β}
    (h : ∀ a ∈ l, f a = g a) : l.map f = l.map g := by
  induction l with
  | nil => rfl
  | cons a as ih =>
      simp only [List.map_cons]
      rw [h a (List.mem_cons_self a as), ih (fun b hb => h b (List.mem_cons_of_mem a hb))]

/-- An element returned by `find?` satisfies the predicate. -/
theorem findPredTrue {α : Type} (l : List α) (pred : α → Bool) (a : α)
    (h : l.find? pred = some a) : pred a = true := by
  induction l with
  | nil => simp at h
  | cons b bs ih =>
      by_cases hb : pred b
      · rw [List.find?_cons_of_pos _ hb] at h
        cases h
        exact hb
      · rw [List.find?_cons_of_neg _ hb] at h
        exact ih h

/-- `find?` commutes with a map that preserves the predicate. -/
theorem findMapOfPred {α : Type} (l : List α) (g : α → α) (pred : α → Bool)
    (h : ∀ a, pred (g a) = pred a) :
    (l.map g).find? pred = (l.find? pred).map g := by
  induction l with
  | nil => rfl
  | cons a as ih =>
      simp only [List.map_cons]
      by_cases hpa : pred a
      · rw [List.find?_cons_of_pos _ (by rw [h a]; exact hpa),
          List.find?_cons_of_pos _ hpa]
        rfl
      · rw [List.find?_cons_of_neg _ (by rw [h a]; exact hpa),
          List.find?_cons_of_neg _ hpa]
        exact ih

/-- Patch application is idempotent: every patched field is overwritten
with the same constant on the second application, and every untouched
field is kept. -/
theorem applyPatch_idem (s : RealtimeSession) (p : RealtimeSessionPatch) :
    applyPatch (applyPatch s p) p = applyPatch s p := by
  unfold applyPatch
  cases p.dataChannel <;> cases p.peer_connection <;> cases p.mediaStream <;>
    cases p.isConnecting <;> cases p.isConnected <;> cases p.endTime <;>
      cases p.duration <;> rfl

/-- Dispatching the same `UPDATE_SESSION` twice equals dispatching it
once. -/
theorem updateSession_idem (state : ChannelState) (p : RealtimeSessionPatch) :
    sessionReducer (sessionReducer state (.updateSession p)) (.updateSession p) =
      sessionReducer state (.updateSession p) := by
  simp only [sessionReducer, List.map_map]
  refine listMapCongr (fun s _ => ?_)
  simp only [Function.comp]
  by_cases h : s.id == p.id
  · rw [if_pos h]
    have hid : ((applyPatch s p).id == p.id) = true := by
      simp [applyPatch]
    rw [if_pos hid, applyPatch_idem]
  · rw [if_neg h, if_neg h]

/-- `closeDuration` reads only the session's `startTime`. -/
theorem closeDuration_eq_of_startTime {s1 s2 : RealtimeSession} (now : Int)
    (h : s1.startTime = s2.startTime) :
    closeDuration s1 now = closeDuration s2 now := by
  unfold closeDuration
  rw [h]

/-- `closeSession` on an id the registry does not hold returns the
state unchanged. -/
theorem closeSession_eq_of_find_none (state : ChannelState)
    (sessionId : String) (now : Int)
    (hfind : state.find? (fun s => s.id == sessionId) = none) :
    closeSession state sessionId now = state := by
  unfold closeSession
  rw [hfind]

/-- `closeSession` on a found session dispatches the closing
`UPDATE_SESSION` computed from that session. -/
theorem closeSession_eq_of_find (state : ChannelState) (sessionId : String)
    (now : Int) (sess : RealtimeSession)
    (hfind : state.find? (fun s => s.id == sessionId) = some sess) :
    closeSession state sessionId now =
      sessionReducer state
        (.updateSession (closePatch sessionId now (closeDuration sess now))) := by
  unfold closeSession
  rw [hfind]

/-- After `closeSession` found its session, looking the id up again
finds the record with the closing patch applied. -/
theorem closeSession_find (state : ChannelState) (sessionId : String)
    (now : Int) (sess : RealtimeSession)
    (hfind : state.find? (fun s => s.id == sessionId) = some sess) :
    (closeSession state sessionId now).find? (fun s => s.id == sessionId) =
      some (applyPatch sess (closePatch sessionId now (closeDuration sess now))) := by
  have hsess : (sess.id == sessionId) = true :=
    findPredTrue state (fun s => s.id == sessionId) sess hfind
  have hpred : ∀ a : RealtimeSession,
      (((if (a.id == (closePatch sessionId now (closeDuration sess now)).id) = true
          then applyPatch a (closePatch sessionId now (closeDuration sess now))
          else a)).id == sessionId) = (a.id == sessionId) := by
    intro a
    by_cases ha : (a.id == sessionId) = true <;>
      simp [closePatch, applyPatch, ha]
  unfold closeSession
  rw [hfind]
  show ((state.map _).find? _) = _
  rw [findMapOfPred state _ _ hpred, hfind]
  have hc : (sess.id == (closePatch sessionId now (closeDuration sess now)).id) = true :=
    hsess
  simp only [Option.map, hc, if_true]

/-- A fold of `ADD_SESSION` commands is an append: the reducer appends
each payload unconditionally, with no duplicate-id check. -/
theorem applyActions_addSession (adds : List RealtimeSession) :
    ∀ init : ChannelState,
      applyActions init (adds.map SessionAction.addSession) = init ++ adds := by
  induction adds with
  | nil => intro init; simp [applyActions]
  | cons a as ih =>
      intro init
      have h1 : applyActions init ((a :: as).map SessionAction.addSession)
          = applyActions (init ++ [a]) (as.map SessionAction.addSession) := rfl
      rw [h1, ih]
      simp

end Lemmas

section Claims

/-- Claim C1, counterexample.  The claim asserts that no sequence of
`ADD_SESSION` commands ever leaves two records with the same id in the
registry.  The reducer's `ADD_SESSION` case is an unconditional append
(`[...state, action.payload]`), so adding the same session id twice
yields two records with id `"a"`: the registry's id list after the
sequence is not duplicate-free. -/
theorem addSession_duplicate_counterexample :
    ¬ (((applyActions []
        [.addSession (sampleSession "a"), .addSession (sampleSession "a")]).map
          (fun s => s.id)).Nodup) := by
  decide

/-- Claim C1 (amended): `ADD_SESSION` appends its payload
unconditionally, neither rejecting a duplicate id nor replacing the
existing record; consequently the registry holds no two records with
the same id after a sequence of `ADD_SESSION` commands exactly when the
ids already present and the ids being added are pairwise distinct. -/
theorem addSession_nodup_of_distinct_ids (init : ChannelState)
    (adds : List RealtimeSession)
    (h : ((init ++ adds).map (fun s => s.id)).Nodup) :
    ((applyActions init (adds.map SessionAction.addSession)).map
        (fun s => s.id)).Nodup := by
  rw [applyActions_addSession adds init]
  exact h

/-- Claim C1 witness: two sessions with distinct ids added to the empty
registry leave a duplicate-free id list. -/
theorem addSession_nodup_of_distinct_ids_witness :
    (((([] : ChannelState) ++ [sampleSession "a", sampleSession "b"]).map
        (fun s => s.id)).Nodup) ∧
    ((applyActions []
        (([sampleSession "a", sampleSession "b"]).map SessionAction.addSession)).map
          (fun s => s.id)).Nodup :=
  ⟨by decide,
   addSession_nodup_of_distinct_ids [] [sampleSession "a", sampleSession "b"]
     (by decide)⟩

/-- Claim C2: every reducer command that rewrites a session by id
(`UPDATE_SESSION`, `ADD_TRANSCRIPT`, `ADD_ERROR`,
`SET_FUNCTION_CALL_HANDLER`, `UPDATE_TOKEN_USAGE`,
`MUTE_SESSION_AUDIO`, `UNMUTE_SESSION_AUDIO`) whose session id matches
no record leaves the registry state unchanged: no exception and no new
entry, because the `state.map` rewrites nothing. -/
theorem reducer_unknown_id_noop (state : ChannelState)
    (action : SessionAction) (i : String)
    (htarget : actionTargetId action = some i)
    (hmiss : ∀ s ∈ state, s.id ≠ i) :
    sessionReducer state action = state := by
  have hfalse : ∀ s ∈ state, (s.id == i) = false := by
    intro s hs
    exact beq_eq_false_iff_ne.mpr (hmiss s hs)
  cases action with
  | addSession payload => simp [actionTargetId] at htarget
  | removeSession id => simp [actionTargetId] at htarget
  | updateSession payload =>
      simp only [actionTargetId, Option.some_inj] at htarget
      subst htarget
      refine listMapSelf (fun s hs => ?_)
      rw [hfalse s hs]
      rfl
  | addTranscript sessionId transcript =>
      simp only [actionTargetId, Option.some_inj] at htarget
      subst htarget
      refine listMapSelf (fun s hs => ?_)
      rw [hfalse s hs]
      rfl
  | addError sessionId error =>
      simp only [actionTargetId, Option.some_inj] at htarget
      subst htarget
      refine listMapSelf (fun s hs => ?_)
      rw [hfalse s hs]
      rfl
  | setFunctionCallHandler sessionId handlerRef =>
      simp only [actionTargetId, Option.some_inj] at htarget
      subst htarget
      refine listMapSelf (fun s hs => ?_)
      rw [hfalse s hs]
      rfl
  | updateTokenUsage sessionId tokenUsage =>
      simp only [actionTargetId, Option.some_inj] at htarget
      subst htarget
      refine listMapSelf (fun s hs => ?_)
      rw [hfalse s hs]
      rfl
  | muteSessionAudio sessionId =>
      simp only [actionTargetId, Option.some_inj] at htarget
      subst htarget
      refine listMapSelf (fun s hs => ?_)
      rw [hfalse s hs]
      rfl
  | unmuteSessionAudio sessionId =>
      simp only [actionTargetId, Option.some_inj] at htarget
      subst htarget
      refine listMapSelf (fun s hs => ?_)
      rw [hfalse s hs]
      rfl

/-- Claim C2 witness: an `ADD_TRANSCRIPT` for the unknown session id
`"b"` leaves the one-session registry `[sampleSession "a"]` unchanged. -/
theorem reducer_unknown_id_noop_witness :
    sessionReducer [sampleSession "a"]
        (.addTranscript "b"
          { content := "hi", timestamp := 0, type := .input, role := .user }) =
      [sampleSession "a"] :=
  reducer_unknown_id_noop [sampleSession "a"]
    (.addTranscript "b"
      { content := "hi", timestamp := 0, type := .input, role := .user })
    "b" rfl (by decide)

/-- Claim C3, counterexample.  The claim asserts that a raw message
that fails to parse is caught, reported and discarded without an
uncaught exception.  The listener body applies `JSON.parse` with no
surrounding `try`/`catch`, so at the concrete malformed message
(modelled by parse result `none`) the listener terminates with the
exception escaping (`Except.error ()`) instead of an `Except.ok`. -/
theorem dcMessageListener_uncaught_counterexample :
    dcMessageListener "s1" 0 true none = Except.error () ∧
    (dcMessageListener "s1" 0 true none).isOk = false := by
  exact ⟨rfl, rfl⟩

/-- Claim C3 (amended): a raw message that is not well-formed JSON
makes the unguarded `JSON.parse` throw out of the listener — the
exception is not caught or reported by the dispatcher — while no
registry action is dispatched for the message, so the channel, the
session record and the registry state are left unchanged. -/
theorem dcMessageListener_parse_failure (sessionId : String) (now : Int)
    (hasHandler : Bool) :
    dcMessageListener sessionId now hasHandler none = Except.error () := rfl

/-- `sendClientEvent` never touches the registry: every branch returns
the input state (the source dispatches no action). -/
theorem sendClientEvent_state (state : ChannelState) (sessionId : String)
    (event : RealtimeEvent) (uuid : String) :
    (sendClientEvent state sessionId event uuid).1 = state := by
  unfold sendClientEvent
  split
  · rfl
  · split
    · rfl
    · split <;> rfl

/-- Claim C4: `sendClientEvent` on an unknown session id, or on a
session whose data channel is absent or not `"open"`, reports the drop
(`console.error`) without throwing and without transmitting, and leaves
the registry state unchanged; once the registry holds the session with
an open channel, the same call transmits the event. -/
theorem sendClientEvent_drop_report_then_recover (state : ChannelState)
    (sessionId : String) (event : RealtimeEvent) (uuid : String)
    (h : sessionChannelOpen state sessionId = false) :
    (sendClientEvent state sessionId event uuid).1 = state ∧
    isDropReport (sendClientEvent state sessionId event uuid).2 = true ∧
    ∀ state2 uuid2, sessionChannelOpen state2 sessionId = true →
      (sendClientEvent state2 sessionId event uuid2).1 = state2 ∧
      ∃ ev, (sendClientEvent state2 sessionId event uuid2).2 = .sent ev := by
  refine ⟨sendClientEvent_state state sessionId event uuid, ?_, ?_⟩
  · unfold sessionChannelOpen at h
    unfold sendClientEvent
    split
    · rfl
    · next session hfind =>
        simp only [hfind] at h
        split
        · rfl
        · next dataChannel hdc =>
            simp only [hdc] at h
            simp [h, isDropReport]
  · intro state2 uuid2 h2
    refine ⟨sendClientEvent_state state2 sessionId event uuid2, ?_⟩
    unfold sessionChannelOpen at h2
    unfold sendClientEvent
    split
    · next hfind =>
        simp only [hfind] at h2
        cases h2
    · next session hfind =>
        simp only [hfind] at h2
        split
        · next hdc =>
            simp only [hdc] at h2
            cases h2
        · next dataChannel hdc =>
            simp only [hdc] at h2
            simp [h2]

/-- Claim C4 witness: against a registry whose only session `"a"` has a
channel still in the `"connecting"` state, a send is a reported drop
that leaves the registry unchanged; against the registry where the same
session's channel is `"open"`, the send transmits. -/
theorem sendClientEvent_drop_report_then_recover_witness :
    ((sendClientEvent [sampleConnectingSession "a"] "a"
        { event_id := none, body := .otherEvent } "u").1 =
      [sampleConnectingSession "a"] ∧
    isDropReport (sendClientEvent [sampleConnectingSession "a"] "a"
        { event_id := none, body := .otherEvent } "u").2 = true) ∧
    ((sendClientEvent [sampleSession "a"] "a"
        { event_id := none, body := .otherEvent } "u2").1 = [sampleSession "a"] ∧
    ∃ ev, (sendClientEvent [sampleSession "a"] "a"
        { event_id := none, body := .otherEvent } "u2").2 = .sent ev) := by
  have h := sendClientEvent_drop_report_then_recover [sampleConnectingSession "a"]
    "a" { event_id := none, body := .otherEvent } "u" (by decide)
  exact ⟨⟨h.1, h.2.1⟩, h.2.2 [sampleSession "a"] "u2" (by decide)⟩

/-- Claim C5, counterexample.  The claim asserts `closeSession` is
idempotent: a second close of the same id is a no-op yielding the same
terminal record.  Closing session `"a"` (started at 1000 ms) at 2000 ms
and again at 3000 ms re-stamps `endTime` (2000 → 3000) and recomputes
`duration` (1 s → 2 s), so the second call is not a no-op. -/
theorem closeSession_twice_counterexample :
    closeSession (closeSession [sampleSession "a"] "a" 2000) "a" 3000 ≠
      closeSession [sampleSession "a"] "a" 2000 := by
  decide

/-- Claim C5 (amended): `closeSession` is idempotent only at a fixed
clock instant — a second close that observes the same current time as
the first produces exactly the state of a single close; a second close
at a later time finds the record still in the registry (with handles
already cleared) and re-dispatches the closing update with the later
`endTime` and recomputed `duration`, all other fields unchanged. -/
theorem closeSession_idem_same_instant (state : ChannelState)
    (sessionId : String) (now : Int) :
    closeSession (closeSession state sessionId now) sessionId now =
      closeSession state sessionId now := by
  cases hfind : state.find? (fun s => s.id == sessionId) with
  | none =>
      have hstep := closeSession_eq_of_find_none state sessionId now hfind
      rw [hstep, closeSession_eq_of_find_none state sessionId now hfind]
  | some sess =>
      have hstep := closeSession_eq_of_find state sessionId now sess hfind
      have hfind2 := closeSession_find state sessionId now sess hfind
      have hstart : (applyPatch sess
          (closePatch sessionId now (closeDuration sess now))).startTime =
            sess.startTime := rfl
      have hdur := closeDuration_eq_of_startTime now hstart
      rw [closeSession_eq_of_find (closeSession state sessionId now) sessionId now
        (applyPatch sess (closePatch sessionId now (closeDuration sess now))) hfind2]
      rw [hdur, hstep]
      exact updateSession_idem state (closePatch sessionId now (closeDuration sess now))

/-- Claim C6: closing a session that has a (nonzero-parse) `startTime`
`t0` stamps `endTime = now` (which is `≥ t0` since the clock read at
close is not earlier than the recorded start), sets
`duration = (endTime - startTime) / 1000` seconds, clears the data
channel and peer-connection handles and the connection flags, and
leaves every field the close update does not name — transcripts,
errors, token usage, mute state, media stream, handler, `startTime`
— unchanged. -/
theorem closeSession_frame (state : ChannelState) (sessionId : String)
    (now t0 : Int) (sess : RealtimeSession)
    (hfind : state.find? (fun s => s.id == sessionId) = some sess)
    (hstart : sess.startTime = some t0) (ht0 : t0 ≠ 0) (hmono : t0 ≤ now) :
    ∃ sess',
      (closeSession state sessionId now).find? (fun s => s.id == sessionId) =
          some sess' ∧
      sess'.endTime = some now ∧ t0 ≤ now ∧
      sess'.duration = some (((now - t0 : Int) : Rat) / 1000) ∧
      sess'.dataChannel = none ∧
      sess'.peer_connection = none ∧
      sess'.isConnecting = some false ∧
      sess'.isConnected = some false ∧
      sess'.transcripts = sess.transcripts ∧
      sess'.tokenUsage = sess.tokenUsage ∧
      sess'.errors = sess.errors ∧
      sess'.isMuted = sess.isMuted ∧
      sess'.mediaStream = sess.mediaStream ∧
      sess'.onFunctionCall = sess.onFunctionCall ∧
      sess'.startTime = sess.startTime := by
  refine ⟨applyPatch sess (closePatch sessionId now (closeDuration sess now)),
    closeSession_find state sessionId now sess hfind,
    rfl, hmono, ?_, rfl, rfl, rfl, rfl, rfl, rfl, rfl, rfl, rfl, rfl, rfl⟩
  have hb : (t0 == 0) = false := by simpa using ht0
  have hd : closeDuration sess now = ((now - t0 : Int) : Rat) / 1000 := by
    unfold closeDuration
    rw [hstart]
    simp [hb]
  show some (closeDuration sess now) = _
  rw [hd]

/-- Claim C6 witness: closing the connected session `"a"` (startTime
1000 ms) at 2000 ms. -/
theorem closeSession_frame_witness :
    ∃ sess',
      (closeSession [sampleSession "a"] "a" 2000).find?
          (fun s => s.id == "a") = some sess' ∧
      sess'.endTime = some 2000 ∧ (1000 : Int) ≤ 2000 ∧
      sess'.duration = some (((2000 - 1000 : Int) : Rat) / 1000) ∧
      sess'.dataChannel = none ∧
      sess'.peer_connection = none ∧
      sess'.isConnecting = some false ∧
      sess'.isConnected = some false ∧
      sess'.transcripts = (sampleSession "a").transcripts ∧
      sess'.tokenUsage = (sampleSession "a").tokenUsage ∧
      sess'.errors = (sampleSession "a").errors ∧
      sess'.isMuted = (sampleSession "a").isMuted ∧
      sess'.mediaStream = (sampleSession "a").mediaStream ∧
      sess'.onFunctionCall = (sampleSession "a").onFunctionCall ∧
      sess'.startTime = (sampleSession "a").startTime :=
  closeSession_frame [sampleSession "a"] "a" 2000 1000 (sampleSession "a")
    (by decide) rfl (by decide) (by decide)

/-- `UPDATE_TOKEN_USAGE` overwrites the token usage of every record
whose id matches, wholesale. -/
theorem updateTokenUsage_tokenUsage (state : ChannelState)
    (sessionId : String) (tu : TokenUsage) :
    ∀ s ∈ sessionReducer state (.updateTokenUsage sessionId tu),
      s.id = sessionId → s.tokenUsage = some tu := by
  intro s hs hid
  simp only [sessionReducer] at hs
  obtain ⟨s0, hs0, rfl⟩ := List.mem_map.mp hs
  by_cases h : (s0.id == sessionId) = true
  · rw [if_pos h]
  · rw [if_neg h] at hid
    exact absurd (by simp [hid]) h

/-- `UPDATE_TOKEN_USAGE` preserves which ids the registry holds. -/
theorem updateTokenUsage_id_mem (state : ChannelState) (sessionId : String)
    (tu : TokenUsage) (h : ∃ s ∈ state, s.id = sessionId) :
    ∃ s ∈ sessionReducer state (.updateTokenUsage sessionId tu),
      s.id = sessionId := by
  obtain ⟨s0, hs0, hid⟩ := h
  refine ⟨_, List.mem_map_of_mem _ hs0, ?_⟩
  by_cases hb : (s0.id == sessionId) = true
  · rw [if_pos hb]
    exact hid
  · rw [if_neg hb]
    exact hid

/-- Claim C7: token usage is a latest-wins wholesale overwrite — after
two consecutive inbound `response.done` events carrying usage objects
`u1` then `u2`, every record of the session holds the mapped `u2`
snapshot (values replaced, never accumulated), and a `response.done`
without a usage object dispatches nothing, leaving the registry
unchanged. -/
theorem tokenUsage_latest_wins (state : ChannelState) (sessionId : String)
    (now1 now2 now3 : Int) (hasHandler : Bool) (u1 u2 : ResponseUsage)
    (hmem : ∃ s ∈ state, s.id = sessionId) :
    (∀ s ∈ afterTwoResponseDone state sessionId now1 now2 hasHandler u1 u2,
        s.id = sessionId →
          s.tokenUsage = some { inputTokens := u2.input_tokens
                                outputTokens := u2.output_tokens
                                totalTokens := u2.total_tokens }) ∧
    (∃ s ∈ afterTwoResponseDone state sessionId now1 now2 hasHandler u1 u2,
        s.id = sessionId) ∧
    processEvent
        (afterTwoResponseDone state sessionId now1 now2 hasHandler u1 u2)
        sessionId now3 hasHandler (respDoneEvent none) =
      afterTwoResponseDone state sessionId now1 now2 hasHandler u1 u2 := by
  refine ⟨?_, ?_, rfl⟩
  · exact updateTokenUsage_tokenUsage _ sessionId _
  · exact updateTokenUsage_id_mem _ sessionId _
      (updateTokenUsage_id_mem _ sessionId _ hmem)

/-- Claim C7 witness: usage `(input 5, output 5, total 10)` then
`(input 7, output 3, total 10)` on session `"a"` leaves
`tokenUsage = (inputTokens 7, outputTokens 3, totalTokens 10)`. -/
theorem tokenUsage_latest_wins_witness :
    (∃ s ∈ afterTwoResponseDone [sampleSession "a"] "a" 1 2 true
        { total_tokens := 10, input_tokens := 5, output_tokens := 5 }
        { total_tokens := 10, input_tokens := 7, output_tokens := 3 },
      s.id = "a") ∧
    (∀ s ∈ afterTwoResponseDone [sampleSession "a"] "a" 1 2 true
        { total_tokens := 10, input_tokens := 5, output_tokens := 5 }
        { total_tokens := 10, input_tokens := 7, output_tokens := 3 },
      s.id = "a" →
        s.tokenUsage = some { inputTokens := 7, outputTokens := 3,
                              totalTokens := 10 }) := by
  have h := tokenUsage_latest_wins [sampleSession "a"] "a" 1 2 0 true
    { total_tokens := 10, input_tokens := 5, output_tokens := 5 }
    { total_tokens := 10, input_tokens := 7, output_tokens := 3 }
    ⟨sampleSession "a", List.mem_singleton.mpr rfl, rfl⟩
  exact ⟨h.2.1, h.1⟩

/-- Claim C8: on a `response.output_item.done` event whose item has
type `function_call`, the listener performs exactly one invocation of
the registered handler, passing the item's `name` and — to
`JSON.parse` — the item's `arguments` string, defaulted to the empty
JSON object text when absent; it dispatches no registry action.  For an
item of any other type the handler is not invoked and the registry is
unchanged. -/
theorem outputItemDone_dispatch (sessionId : String) (now : Int)
    (response_id : String) (output_index : Int) (item : OutputItem) :
    (item.type = ConversationItemType.function_call →
      (dcMessageActions sessionId now true
          (outputItemDoneEvent response_id output_index item)).2 =
        [{ name := item.name
           argsJson := argumentsOrEmptyObject item.arguments }] ∧
      (dcMessageActions sessionId now true
          (outputItemDoneEvent response_id output_index item)).1 = []) ∧
    (item.type ≠ ConversationItemType.function_call →
      (dcMessageActions sessionId now true
          (outputItemDoneEvent response_id output_index item)).2 = [] ∧
      ∀ state : ChannelState,
        processEvent state sessionId now true
            (outputItemDoneEvent response_id output_index item) = state) ∧
    argumentsOrEmptyObject none = "\x7b\x7d" := by
  refine ⟨fun hfc => ?_, fun hnfc => ?_, rfl⟩
  · have hb : (item.type == ConversationItemType.function_call) = true := by
      simp [hfc]
    constructor <;>
      simp [dcMessageActions, outputItemDoneEvent, hb]
  · have hb : (item.type == ConversationItemType.function_call) = false := by
      simpa using hnfc
    constructor
    · simp [dcMessageActions, outputItemDoneEvent, hb]
    · intro state
      simp [processEvent, applyActions, dcMessageActions,
        outputItemDoneEvent, hb]

/-- The function-call output item of the spec's Scenario E. -/
def sampleFunctionCallItem : OutputItem :=
  { id := "item_1"
    type := .function_call
    name := some "change_background"
    arguments := some "\x7b\"color\":\"#ff0000\"\x7d" }

/-- A completed message output item (not a function call). -/
def sampleMessageItem : OutputItem :=
  { id := "item_2"
    type := .message
    name := none
    arguments := none }

/-- Claim C8 witness: the `change_background` function-call item
produces exactly one handler invocation with its name and arguments
string, while a message item produces none and leaves the registry
unchanged. -/
theorem outputItemDone_dispatch_witness :
    ((dcMessageActions "a" 0 true
        (outputItemDoneEvent "r" 0 sampleFunctionCallItem)).2 =
      [{ name := some "change_background"
         argsJson := "\x7b\"color\":\"#ff0000\"\x7d" }] ∧
     (dcMessageActions "a" 0 true
        (outputItemDoneEvent "r" 0 sampleFunctionCallItem)).1 = []) ∧
    ((dcMessageActions "a" 0 true
        (outputItemDoneEvent "r" 0 sampleMessageItem)).2 = [] ∧
     processEvent [sampleSession "a"] "a" 0 true
        (outputItemDoneEvent "r" 0 sampleMessageItem) = [sampleSession "a"]) := by
  have h1 := (outputItemDone_dispatch "a" 0 "r" 0 sampleFunctionCallItem).1 rfl
  have h2 := (outputItemDone_dispatch "a" 0 "r" 0 sampleMessageItem).2.1
    (by decide)
  exact ⟨h1, ⟨h2.1, h2.2 [sampleSession "a"]⟩⟩

/-- Claim C9: `sendTextMessage` is exactly one delegation to
`sendClientEvent` of one `conversation.item.create` event whose item is
a message under role user with a single input-text content part
carrying the message; the event is not `response.create` and no
response is requested; on an open channel the transmitted event is that
event itself (its fresh id preserved). -/
theorem sendTextMessage_single_item_create (state : ChannelState)
    (sessionId message uuid1 uuid2 : String) :
    sendTextMessage state sessionId message uuid1 uuid2 =
      sendClientEvent state sessionId (userTextEvent uuid1 message) uuid2 ∧
    (userTextEvent uuid1 message).body =
      .conversationItemCreate
        { type := .message
          role := some .user
          content := some
            [{ type := .input_text
               text := some message
               id := none
               audio := none
               transcript := none }] } ∧
    isResponseCreate (userTextEvent uuid1 message) = false ∧
    (uuid1 ≠ "" → ∀ state2 : ChannelState,
      sessionChannelOpen state2 sessionId = true →
        (sendTextMessage state2 sessionId message uuid1 uuid2).2 =
          .sent (userTextEvent uuid1 message)) := by
  refine ⟨rfl, rfl, rfl, fun hu state2 hopen => ?_⟩
  have hbu : (uuid1 == "") = false := by simpa using hu
  unfold sendTextMessage
  unfold sessionChannelOpen at hopen
  unfold sendClientEvent
  split
  · next hfind =>
      simp only [hfind] at hopen
      cases hopen
  · next session hfind =>
      simp only [hfind] at hopen
      split
      · next hdc =>
          simp only [hdc] at hopen
          cases hopen
      · next dataChannel hdc =>
          simp only [hdc] at hopen
          simp [hopen, userTextEvent, hbu]

/-- Claim C9 witness: sending `"hello"` delegates the single
`conversation.item.create` user event, and on the open-channel registry
`[sampleSession "a"]` that exact event is transmitted. -/
theorem sendTextMessage_single_item_create_witness :
    sendTextMessage [] "a" "hello" "u1" "u2" =
      sendClientEvent [] "a" (userTextEvent "u1" "hello") "u2" ∧
    isResponseCreate (userTextEvent "u1" "hello") = false ∧
    (sendTextMessage [sampleSession "a"] "a" "hello" "u1" "u2").2 =
      .sent (userTextEvent "u1" "hello") := by
  have h := sendTextMessage_single_item_create [] "a" "hello" "u1" "u2"
  exact ⟨h.1, h.2.2.1, h.2.2.2 (by decide) [sampleSession "a"] (by decide)⟩

/-- Claim C10: closing a session whose `startTime` is absent, or whose
recorded start parses to epoch millisecond `0` (both falsy in the
source's `startTimeMs ? ... : 0`), sets `duration` to exactly `0`
instead of a wall-clock difference, while still stamping
`endTime = now`. -/
theorem closeSession_zero_startTime (state : ChannelState)
    (sessionId : String) (now : Int) (sess : RealtimeSession)
    (hfind : state.find? (fun s => s.id == sessionId) = some sess)
    (hstart : sess.startTime = none ∨ sess.startTime = some 0) :
    ∃ sess',
      (closeSession state sessionId now).find? (fun s => s.id == sessionId) =
          some sess' ∧
      sess'.duration = some 0 ∧
      sess'.endTime = some now := by
  refine ⟨applyPatch sess (closePatch sessionId now (closeDuration sess now)),
    closeSession_find state sessionId now sess hfind, ?_, rfl⟩
  have hd : closeDuration sess now = 0 := by
    unfold closeDuration
    rcases hstart with h | h <;> rw [h] <;> simp
  show some (closeDuration sess now) = some 0
  rw [hd]

/-- `sampleSession` with no recorded `startTime`. -/
def sampleNoStartSession (id : String) : RealtimeSession :=
  { sampleSession id with startTime := none }

/-- Claim C10 witness: closing the session `"a"` that has no recorded
`startTime` at 2000 ms yields `duration = 0` and `endTime = 2000`. -/
theorem closeSession_zero_startTime_witness :
    ∃ sess',
      (closeSession [sampleNoStartSession "a"] "a" 2000).find?
          (fun s => s.id == "a") = some sess' ∧
      sess'.duration = some 0 ∧
      sess'.endTime = some 2000 :=
  closeSession_zero_startTime [sampleNoStartSession "a"] "a" 2000
    (sampleNoStartSession "a") (by decide) (Or.inl rfl)

end Claims

end RealtimeWebRTC
